import Mathlib

/-!
Verification of the bridgy-fed ActivityPub inbox core (src/activitypub.py).

The embedding models the JSON activity values, the follower / activity-log
datastore, and the inbox state machine of `activitypub.py`: `inbox`,
`accept_follow`, `undo_follow`, and the signed-delivery helper `send`.

The persistence layer (models.py) and the shared helpers (common.py) are not
part of the sources; where their behaviour matters it is modelled from the
specification, and each such definition is marked with a doc comment starting
"Modelled from the spec:".  External library collaborators (webutil, granary,
requests, httpsig, hashlib) are abstracted as fields of an environment record.
-/

/-- A JSON value as it appears in an AS2 activity: null, string, object or
array.  (Numbers and booleans never influence the control flow of the inbox
handler, so they are not needed.) -/
inductive JVal where
  | jnull
  | jstr (s : String)
  | jobj (fields : List (String × JVal))
  | jarr (elems : List JVal)

/-- Python dict `get`: field lookup on an object, `none` otherwise. -/
def JVal.get : JVal → String → Option JVal
  | .jobj l, k => (l.find? (fun p => p.1 == k)).map (fun p => p.2)
  | _, _ => none

/-- Python dict assignment `d[k] = v`: replaces the field in place, appends if
absent.  On non-objects it is the identity (never reached by the source). -/
def setField : List (String × JVal) → String → JVal → List (String × JVal)
  | [], k, v => [(k, v)]
  | (k0, v0) :: rest, k, v =>
      if k0 == k then (k, v) :: rest else (k0, v0) :: setField rest k v

def JVal.set : JVal → String → JVal → JVal
  | .jobj l, k, v => .jobj (setField l k v)
  | j, _, _ => j

/-- Python truthiness of a JSON value: None, "", {} and [] are falsy. -/
def JVal.truthy : JVal → Bool
  | .jnull => false
  | .jstr s => !(s == "")
  | .jobj l => !l.isEmpty
  | .jarr l => !l.isEmpty

/-- Truthiness of `d.get(k)`: a missing field is falsy (None). -/
def otruthy : Option JVal → Bool
  | some v => v.truthy
  | none => false

/-- The string carried by a JSON value when it is a string; used to model the
Python comparisons `activity.get('type') == 'Accept'` etc., which are `False`
for any non-string value. -/
def type_name : Option JVal → Option String
  | some (JVal.jstr s) => some s
  | _ => none

/-- `models.Follower`: persisted follower relationship keyed by (dest, src).
Modelled from the spec: models.py is not in src/; spec section 3 gives the
fields dest, src, status in {active, inactive} and last_follow. -/
structure Follower where
  dest : String
  src : String
  status : String
  last_follow : String
deriving DecidableEq, Repr

/-- `models.Activity`: append-only inbound activity log entry.  Field names
and values follow the constructor call in activitypub.py lines 177-179. -/
structure Activity where
  source : Option JVal
  target : String
  direction : String
  protocol : String
  domain : List String
  status : String
  source_as2 : String

/-- The datastore visible to this core: Follower records and Activity log
entries.  Treated as an abstract keyed store per the spec (section 1). -/
structure Datastore where
  followers : List Follower
  activities : List Activity

/-- An HTTP response: body text and status code.  `error(msg, status)` from
flask_util produces the message body with the given status (default 400). -/
structure Resp where
  text : String
  status : Nat
deriving DecidableEq, Repr

/-- Observable side effects of one inbox request, in program order:
Follower puts, outbound signed AP deliveries, Activity log puts, and
webmention-equivalent delivery attempts. -/
inductive Event where
  | putFollower (dest src : String)
  | sendAP (activity : JVal) (inbox_url : String) (user_domain : String)
  | putActivity (entry : Activity)
  | sendWebmentions (source_as2 : String)

/-- Result of handling one inbound request: the HTTP response, the updated
datastore, and the emitted side-effect trace. -/
structure StepOut where
  resp : Resp
  ds : Datastore
  events : List Event

/-- External collaborators of the inbox handler, abstracted as functions.
`redirect_unwrap`, `get_as2` and the webmention sender live in common.py,
which is not in src/ (modelled from the spec as opaque collaborators,
sections 4.5 and 6); `domain_from_link`, `json_dumps`, `tag_uri` are webutil
library functions; `is_public` is granary's AS2 public-audience check;
`send_resp` is the remote inbox's response to the outbound Accept POST. -/
structure Env where
  redirect_unwrap : JVal → JVal
  get_as2 : String → JVal
  domain_from_link : JVal → String
  json_dumps : JVal → String
  reprNonStr : JVal → String
  tag_uri : String → String → String
  send_webmentions_sent : Bool
  is_public : JVal → Bool
  send_resp : Resp
  host : String
  host_url : String

/-- Python `'%s' % v` string coercion: a string stays itself, any other value
renders via its repr (abstracted in the environment). -/
def pyToStr (env : Env) : JVal → String
  | JVal.jstr s => s
  | v => env.reprNonStr v

/-- activitypub.py lines 26-39: the supported activity types. -/
def SUPPORTED_TYPES : List String :=
  ["Accept", "Announce", "Article", "Audio", "Create", "Delete", "Follow",
   "Image", "Like", "Note", "Undo", "Video"]

/-- activitypub.py line 115: `type not in SUPPORTED_TYPES` (Python tuple
membership is equality-based, so any non-string type is unsupported). -/
def isSupported (t : Option JVal) : Bool :=
  match type_name t with
  | some s => SUPPORTED_TYPES.contains s
  | none => false

/-- activitypub.py lines 108-110: `obj = activity.get('object') or {}` and
the coercion of a bare string object to `{'id': obj}`. -/
def parse_obj (activity : JVal) : JVal :=
  let obj0 := match activity.get "object" with
    | some v => if v.truthy then v else JVal.jobj []
    | none => JVal.jobj []
  match obj0 with
  | JVal.jstr s => JVal.jobj [("id", JVal.jstr s)]
  | v => v

/-- activitypub.py lines 145-147: fetch the actor profile when the actor is a
non-empty string reference, storing the result back into the activity. -/
def fetch_actor (env : Env) (activity : JVal) : JVal :=
  match activity.get "actor" with
  | some (JVal.jstr s) =>
      if (JVal.jstr s).truthy then activity.set "actor" (env.get_as2 s)
      else activity
  | _ => activity

/-- Modelled from the spec: `models.Follower.get_or_create` (models.py is not
in src/).  Spec section 4.3: upserts on the composite key (dest, src); if a
record (even inactive) exists it is reactivated and last_follow overwritten;
otherwise a fresh active record is created. -/
def Follower.get_or_create (dest src last_follow : String) (ds : Datastore) : Datastore :=
  if ds.followers.any (fun f => f.dest == dest && f.src == src) then
    { ds with followers := ds.followers.map (fun f =>
        if f.dest == dest && f.src == src then
          { f with status := "active", last_follow := last_follow }
        else f) }
  else
    { ds with followers := ds.followers ++
        [{ dest := dest, src := src, status := "active", last_follow := last_follow }] }

/-- Spec section 4.3 `query_active_by_dest`: the distinct active follower srcs
for fan-out; "must not include inactive followers".  This is the spec-side
definition that claim C1 compares against the code's query. -/
def query_active_by_dest (ds : Datastore) (dest : String) : List String :=
  (ds.followers.filter (fun f => f.dest == dest && f.status == "active")).map
    (fun f => f.src)

/-- activitypub.py lines 169-176: the fan-out query
`Follower.query(Follower.dest == actor_id, projection=[Follower.src])` guarded
by the truthiness of `actor` and `actor_id`.  Note the query has no status
filter.  The result is `none` exactly where the source raises: a truthy
non-object actor makes `actor.get('id')` at line 171 raise, and a truthy
non-string id is rejected by the string-valued `Follower.dest` comparison at
line 175 — both unhandled server errors. -/
def fanout_domains (ds : Datastore) (actor : Option JVal) : Option (List String) :=
  match actor with
  | some a =>
      if a.truthy then
        match a with
        | JVal.jobj al =>
          match (JVal.jobj al).get "id" with
          | some v =>
              if v.truthy then
                match v with
                | JVal.jstr i =>
                    some ((ds.followers.filter (fun f => f.dest == i)).map (fun f => f.src))
                | _ => none
              else some []
          | none => some []
        | _ => none
      else some []
  | none => some []

/-- activitypub.py line 168: `source = activity.get('url') or activity.get('id')`. -/
def activity_source (activity : JVal) : Option JVal :=
  match activity.get "url" with
  | some v => if v.truthy then some v else activity.get "id"
  | none => activity.get "id"

/-- activitypub.py lines 211-222: the Accept activity constructed as a reply
to a Follow. `fe` is the raw followee value, `fidV` the raw follower id. -/
def accept_activity (env : Env) (follow fe fidV : JVal) (user_domain : String) : JVal :=
  JVal.jobj [
    ("@context", JVal.jstr "https://www.w3.org/ns/activitystreams"),
    ("id", JVal.jstr (env.tag_uri env.host
        ("accept/" ++ user_domain ++ "/" ++ pyToStr env ((follow.get "id").getD JVal.jnull)))),
    ("type", JVal.jstr "Accept"),
    ("actor", fe),
    ("object", JVal.jobj [
      ("type", JVal.jstr "Follow"),
      ("actor", fidV),
      ("object", fe)])]

/-- activitypub.py lines 185-229 `accept_follow`: validates followee/actor,
stores the Follower, sends the Accept to the follower's inbox, forwards the
Follow as a webmention, and returns the Accept delivery's text and status.
The unhandled server errors (status 500) trace the source order: a truthy
non-object actor makes `follower.get('inbox')` at line 200 raise before any
write; a truthy non-string id is rejected by the string-valued src property
inside `get_or_create` at line 207, still before any write; but a truthy
non-string inbox URL with a valid string id makes `send` raise at line 223 —
AFTER the Follower record was stored at line 207, so that 500 follows the
datastore mutation and its putFollower effect. -/
def accept_follow (env : Env) (follow follow_unwrapped : JVal) (ds : Datastore) : StepOut :=
  let followee := follow.get "object"
  let followee_unwrapped := follow_unwrapped.get "object"
  let follower := follow.get "actor"
  if otruthy followee = false ∨ otruthy followee_unwrapped = false ∨
     otruthy follower = false then
    ⟨⟨"Follow activity requires object and actor.", 400⟩, ds, []⟩
  else
    match follower with
    | some (JVal.jobj fl) =>
      let fr := JVal.jobj fl
      let inboxV := fr.get "inbox"
      let follower_id := fr.get "id"
      if otruthy inboxV = false ∨ otruthy follower_id = false then
        ⟨⟨"Follow actor requires id and inbox.", 400⟩, ds, []⟩
      else
        match follower_id with
        | some (JVal.jstr fid) =>
          let fe := followee.getD JVal.jnull
          let feu := followee_unwrapped.getD JVal.jnull
          let user_domain := env.domain_from_link feu
          let ds2 := Follower.get_or_create user_domain fid (env.json_dumps follow) ds
          let accept := accept_activity env follow fe (JVal.jstr fid) user_domain
          match inboxV with
          | some (JVal.jstr ib) =>
            ⟨⟨env.send_resp.text, env.send_resp.status⟩,
             ds2,
             [Event.putFollower user_domain fid,
              Event.sendAP accept ib user_domain,
              Event.sendWebmentions (env.json_dumps follow_unwrapped)]⟩
          | _ =>
            ⟨⟨"", 500⟩, ds2, [Event.putFollower user_domain fid]⟩
        | _ => ⟨⟨"", 500⟩, ds, []⟩
    | _ => ⟨⟨"", 500⟩, ds, []⟩

/-- activitypub.py lines 232-255 `undo_follow`: validates the inner Follow,
then deactivates the matching Follower record if one exists (an atomic
read-modify-write on the composite key), and is a silent no-op otherwise.
A truthy non-object inner follow value (whose `.get` would raise) surfaces as
an unhandled server error. -/
def undo_follow (env : Env) (undo_unwrapped : JVal) (ds : Datastore) :
    Except Resp (Datastore × List Event) :=
  let follow := (undo_unwrapped.get "object").getD (JVal.jobj [])
  match follow with
  | JVal.jobj _ =>
    let follower := follow.get "actor"
    let followee := follow.get "object"
    if otruthy follower = false ∨ otruthy followee = false then
      Except.error ⟨"Undo of Follow requires object with actor and object.", 400⟩
    else
      let user_domain := env.domain_from_link (followee.getD JVal.jnull)
      let srcKey := pyToStr env (follower.getD JVal.jnull)
      if ds.followers.any (fun f => f.dest == user_domain && f.src == srcKey) then
        Except.ok
          ({ ds with followers := ds.followers.map (fun f =>
              if f.dest == user_domain && f.src == srcKey then
                { f with status := "inactive" }
              else f) },
           [Event.putFollower user_domain srcKey])
      else
        Except.ok (ds, [])
  | _ => Except.error ⟨"", 500⟩

/-- activitypub.py lines 144-182: the tail of the inbox handler after the
Undo-Follow and Delete branches — actor fetch, redirect unwrap, Follow
dispatch, webmention attempt, and the public Create/Announce fan-out.  When
the fan-out query raises (see `fanout_domains`) the request dies with an
unhandled 500 AFTER the webmention attempt at line 156 already happened, and
no Activity entry is written. -/
def inbox_rest (env : Env) (ds : Datastore) (activity : JVal) : StepOut :=
  let activity2 := fetch_actor env activity
  let actor := activity2.get "actor"
  let activity_unwrapped := env.redirect_unwrap activity2
  let ty := type_name (activity.get "type")
  if ty = some "Follow" then
    accept_follow env activity2 activity_unwrapped ds
  else
    let source_as2 := env.json_dumps activity_unwrapped
    let wmEv := [Event.sendWebmentions source_as2]
    if env.send_webmentions_sent = false ∧
       (ty = some "Create" ∨ ty = some "Announce") then
      if env.is_public activity_unwrapped = false then
        ⟨⟨"", 200⟩, ds, wmEv⟩
      else
        match fanout_domains ds actor with
        | none => ⟨⟨"", 500⟩, ds, wmEv⟩
        | some domains =>
          let entry : Activity :=
            { source := activity_source activity2, target := "Public",
              direction := "in", protocol := "activitypub", domain := domains,
              status := "complete", source_as2 := source_as2 }
          ⟨⟨"", 200⟩,
           { ds with activities := ds.activities ++ [entry] },
           wmEv ++ [Event.putActivity entry]⟩
    else
      ⟨⟨"", 200⟩, ds, wmEv⟩

/-- activitypub.py lines 94-182 `inbox`: parse/validate the body, recognize
Accept as a no-op, reject unsupported types with 501, dispatch Undo-Follow,
Delete, Follow, and the webmention/fan-out tail.  A truthy non-object body,
or a truthy array object reached by `obj.get(...)` in the Undo/Delete
branches, would raise in the source (an unhandled server error, 500). -/
def inbox (env : Env) (ds : Datastore) (body : Option JVal) : StepOut :=
  match body with
  | none => ⟨⟨"Couldn't parse body as JSON", 400⟩, ds, []⟩
  | some activity =>
    if activity.truthy = false then
      ⟨⟨"Couldn't parse body as JSON", 400⟩, ds, []⟩
    else
      match activity with
      | JVal.jobj _ =>
        let obj := parse_obj activity
        let ty := type_name (activity.get "type")
        if ty = some "Accept" then ⟨⟨"", 200⟩, ds, []⟩
        else if isSupported (activity.get "type") = false then
          ⟨⟨"Sorry, activities of that type are not supported yet.", 501⟩, ds, []⟩
        else if ty = some "Undo" then
          match obj with
          | JVal.jarr _ => ⟨⟨"", 500⟩, ds, []⟩
          | _ =>
            if type_name (obj.get "type") = some "Follow" then
              match undo_follow env (env.redirect_unwrap activity) ds with
              | Except.error r => ⟨r, ds, []⟩
              | Except.ok (ds2, evs) => ⟨⟨"", 200⟩, ds2, evs⟩
            else inbox_rest env ds activity
        else if ty = some "Delete" then
          match obj with
          | JVal.jarr _ => ⟨⟨"", 500⟩, ds, []⟩
          | _ => ⟨⟨"", 200⟩, ds, []⟩
        else inbox_rest env ds activity
      | _ => ⟨⟨"", 500⟩, ds, []⟩

/-- A concrete environment for evaluating the handlers on test inputs: the
redirect codec is the identity, actor fetches return null, the domain of a
string link is the string itself, and serialization is a constant. -/
def baseEnv : Env :=
  { redirect_unwrap := fun x => x,
    get_as2 := fun _ => JVal.jnull,
    domain_from_link := fun v => match v with | JVal.jstr s => s | _ => "",
    json_dumps := fun _ => "{}",
    reprNonStr := fun _ => "?",
    tag_uri := fun h t => "tag:" ++ h ++ ":" ++ t,
    send_webmentions_sent := false,
    is_public := fun _ => true,
    send_resp := { text := "", status := 200 },
    host := "fed.brid.gy",
    host_url := "http://localhost/" }

/-- Environment whose Accept delivery succeeds with a non-empty body. -/
def envAccepted : Env := { baseEnv with send_resp := { text := "accepted!", status := 202 } }

/-- Environment whose Accept delivery fails with a 502. -/
def envFailedSend : Env := { baseEnv with send_resp := { text := "", status := 502 } }

/-- Environment whose public-audience check rejects every activity. -/
def envNonPublic : Env := { baseEnv with is_public := fun _ => false }

/-- An empty datastore. -/
def dsEmpty : Datastore := { followers := [], activities := [] }

/-- A datastore holding one INACTIVE follower of the actor http://a/actor. -/
def dsInactive : Datastore :=
  { followers := [{ dest := "http://a/actor", src := "foo.com",
                    status := "inactive", last_follow := "" }],
    activities := [] }

/-- A datastore holding one active follower record. -/
def dsOneActive : Datastore :=
  { followers := [{ dest := "https://foo.com/", src := "http://fr/actor",
                    status := "active", last_follow := "x" }],
    activities := [] }

/-- Fields of a public Announce activity whose actor has the id
http://a/actor. -/
def actAnnounceL : List (String × JVal) :=
  [("type", JVal.jstr "Announce"),
   ("actor", JVal.jobj [("id", JVal.jstr "http://a/actor")]),
   ("id", JVal.jstr "http://a/post")]

/-- Fields of a Like activity. -/
def actLikeL : List (String × JVal) :=
  [("type", JVal.jstr "Like"),
   ("actor", JVal.jobj [("id", JVal.jstr "http://x")]),
   ("object", JVal.jstr "http://site/post")]

/-- Fields of a well-formed Follow activity. -/
def actFollowL : List (String × JVal) :=
  [("type", JVal.jstr "Follow"),
   ("actor", JVal.jobj [("id", JVal.jstr "http://fr/actor"),
                        ("inbox", JVal.jstr "http://fr/inbox")]),
   ("object", JVal.jstr "https://foo.com/")]

/-- Fields of an Undo activity with an embedded Follow object. -/
def actUndoL : List (String × JVal) :=
  [("type", JVal.jstr "Undo"),
   ("object", JVal.jobj [("type", JVal.jstr "Follow"),
                         ("actor", JVal.jstr "http://fr/actor"),
                         ("object", JVal.jstr "https://foo.com/")])]

/-- Fields of an Undo activity whose object is a bare string Follow id. -/
def actUndoStrL : List (String × JVal) :=
  [("type", JVal.jstr "Undo"),
   ("object", JVal.jstr "http://follow/id"),
   ("actor", JVal.jobj [("id", JVal.jstr "http://fr/actor")])]

/-- Fields of a Delete activity for an actor id. -/
def actDeleteL : List (String × JVal) :=
  [("type", JVal.jstr "Delete"),
   ("object", JVal.jstr "http://gone/actor")]

/-- Fields of a Create activity (used non-public in the C8 witness). -/
def actCreateL : List (String × JVal) :=
  [("type", JVal.jstr "Create"),
   ("actor", JVal.jobj [("id", JVal.jstr "http://a/actor")]),
   ("object", JVal.jobj [("type", JVal.jstr "Note"), ("id", JVal.jstr "http://a/note")])]

/-- The base64 alphabet. -/
def b64chars : List Char :=
  "ABCDEFGHIJKLMNOPQRSTUVWXYZabcdefghijklmnopqrstuvwxyz0123456789+/".toList

def b64char (n : Nat) : Char := b64chars.getD n 'A'

/-- Standard base64 of a byte list (each byte taken mod 256), with padding:
the encoding used by Python's `base64.b64encode`. -/
def b64encode : List Nat → String
  | [] => ""
  | [a] =>
      let a := a % 256
      String.mk [b64char (a / 4), b64char ((a % 4) * 16)] ++ "=="
  | [a, b] =>
      let a := a % 256
      let b := b % 256
      String.mk [b64char (a / 4), b64char ((a % 4) * 16 + b / 16),
                 b64char ((b % 16) * 4)] ++ "="
  | a :: b :: c :: rest =>
      let a := a % 256
      let b := b % 256
      let c := c % 256
      String.mk [b64char (a / 4), b64char ((a % 4) * 16 + b / 16),
                 b64char ((b % 16) * 4 + c / 64), b64char (c % 64)] ++
      b64encode rest

/-- External collaborators of the signed-delivery helper `send`.
`private_pem` is modelled from the spec: `User.get_or_create(...).private_pem()`
(models.py is not in src/; spec sections 3 and 4.1 make the per-domain key
stable, hence a function of the domain).  `sha256` is hashlib's digest of the
UTF-8 body; `rsa_sign` is httpsig's RSA-SHA256 signature over the signed
header set (Date, Digest, Host) given the key PEM and keyId; `date` is the
timestamp header value fixed for the run. -/
structure CryptoEnv where
  host_url : String
  private_pem : String → String
  json_dumps : JVal → String
  sha256 : String → List Nat
  rsa_sign : String → String → String → String → String → String
  domain_from_link : String → String
  date : String

/-- The headers and body of one outbound signed delivery. -/
structure SendResult where
  body : String
  date : String
  digest : String
  host : String
  signature : String

/-- activitypub.py lines 42-78 `send`: serializes the activity once, computes
the Digest header over those bytes, and signs the Date/Digest/Host headers
with the sending user's key; the same body bytes are posted. -/
def send (env : CryptoEnv) (activity : JVal) (inbox_url user_domain : String) :
    SendResult :=
  let key_id := env.host_url ++ user_domain
  let pem := env.private_pem user_domain
  let body := env.json_dumps activity
  let host := env.domain_from_link inbox_url
  let digest := "SHA-256=" ++ b64encode (env.sha256 body)
  { body := body, date := env.date, digest := digest, host := host,
    signature := env.rsa_sign pem key_id env.date digest host }

/-- A concrete crypto environment for evaluating `send` on test inputs. -/
def cryptoFix : CryptoEnv :=
  { host_url := "http://localhost/",
    private_pem := fun d => "PEM-" ++ d,
    json_dumps := fun _ => "{}",
    sha256 := fun s => [s.length % 256],
    rsa_sign := fun pem kid date dg h =>
      pem ++ "|" ++ kid ++ "|" ++ date ++ "|" ++ dg ++ "|" ++ h,
    domain_from_link := fun s => s,
    date := "Sun, 12 Oct 2025 00:00:00 GMT" }

/-- A JSON value is an object whenever a field lookup on it succeeds. -/
theorem jval_get_some_obj {v : JVal} {k : String} {x : JVal} (h : v.get k = some x) :
    ∃ l, v = JVal.jobj l := by
  cases v with
  | jobj l => exact ⟨l, rfl⟩
  | jnull => simp [JVal.get] at h
  | jstr s => simp [JVal.get] at h
  | jarr a => simp [JVal.get] at h

/-- When the object field is absent, falsy, a string or an object, the parsed
object of the inbox handler is an object. -/
theorem parse_obj_is_obj {l : List (String × JVal)}
    (hobj : ∀ v, (JVal.jobj l).get "object" = some v → v.truthy = true →
      (∃ s, v = JVal.jstr s) ∨ (∃ m, v = JVal.jobj m)) :
    ∃ m, parse_obj (JVal.jobj l) = JVal.jobj m := by
  unfold parse_obj
  cases hg : (JVal.jobj l).get "object" with
  | none => exact ⟨[], rfl⟩
  | some v =>
    cases ht : v.truthy with
    | false => simp [ht]
    | true =>
      rcases hobj v hg ht with ⟨s, rfl⟩ | ⟨m, rfl⟩
      · simp [ht]
      · simp [ht]

/-- Filtering after a map commutes with filtering first when the map does not
change the predicate. -/
theorem filter_map_comm {α} (g : α → α) (p : α → Bool) (hp : ∀ x, p (g x) = p x) :
    ∀ l : List α, (l.map g).filter p = (l.filter p).map g := by
  intro l
  induction l with
  | nil => rfl
  | cons x xs ih =>
    by_cases hx : p x = true
    · simp [List.filter_cons, hp, hx, ih]
    · simp [List.filter_cons, hp, hx, ih]

/-- After a get-or-create, exactly one record carries the key, given the
keyed-store invariant that at most one did before. -/
theorem get_or_create_key_count (dest src lf : String) (ds : Datastore)
    (h : (ds.followers.filter (fun f => f.dest == dest && f.src == src)).length ≤ 1) :
    ((Follower.get_or_create dest src lf ds).followers.filter
        (fun f => f.dest == dest && f.src == src)).length = 1 := by
  unfold Follower.get_or_create
  by_cases hany : ds.followers.any (fun f => f.dest == dest && f.src == src) = true
  · simp only [hany, if_pos]
    rw [filter_map_comm]
    · rw [List.length_map]
      rcases List.any_eq_true.mp hany with ⟨x, hx, hpx⟩
      have hmem : x ∈ ds.followers.filter (fun f => f.dest == dest && f.src == src) :=
        List.mem_filter.mpr ⟨hx, hpx⟩
      have hpos : 0 < (ds.followers.filter (fun f => f.dest == dest && f.src == src)).length :=
        List.length_pos.mpr (List.ne_nil_of_mem hmem)
      omega
    · intro x
      by_cases hpx : (x.dest == dest && x.src == src) = true
      · simp [hpx]
      · simp [hpx]
  · simp only [hany, if_neg, Bool.not_eq_true]
    have hnil : ds.followers.filter (fun f => f.dest == dest && f.src == src) = [] := by
      rw [List.filter_eq_nil_iff]
      intro x hx
      have hall := (List.any_eq_true).not.mp hany
      push_neg at hall
      simpa using hall x hx
    simp [List.filter_append, hnil, List.filter_cons]

/-- After a get-or-create, every record carrying the key is active. -/
theorem get_or_create_all_active (dest src lf : String) (ds : Datastore) :
    ∀ f ∈ (Follower.get_or_create dest src lf ds).followers,
      f.dest = dest → f.src = src → f.status = "active" := by
  unfold Follower.get_or_create
  by_cases hany : ds.followers.any (fun f => f.dest == dest && f.src == src) = true
  · simp only [hany, if_pos]
    intro f hf hd hs
    rcases List.mem_map.mp hf with ⟨x, hx, hgx⟩
    by_cases hpx : (x.dest == dest && x.src == src) = true
    · rw [← hgx]; simp [hpx]
    · rw [if_neg hpx] at hgx
      subst hgx
      exact absurd (by simp [hd, hs]) hpx
  · simp only [hany, if_neg, Bool.not_eq_true]
    intro f hf hd hs
    rcases List.mem_append.mp hf with hmem | hmem
    · exfalso
      have hall := (List.any_eq_true).not.mp hany
      push_neg at hall
      exact absurd (by simp [hd, hs]) (hall f hmem)
    · simp at hmem
      rw [hmem]

/-- A get-or-create leaves an active record carrying the key in the store. -/
theorem get_or_create_mem (dest src lf : String) (ds : Datastore) :
    ∃ f ∈ (Follower.get_or_create dest src lf ds).followers,
      f.dest = dest ∧ f.src = src ∧ f.status = "active" := by
  unfold Follower.get_or_create
  by_cases hany : ds.followers.any (fun f => f.dest == dest && f.src == src) = true
  · simp only [hany, if_pos]
    rcases List.any_eq_true.mp hany with ⟨x, hx, hpx⟩
    simp only [Bool.and_eq_true, beq_iff_eq] at hpx
    refine ⟨{ x with status := "active", last_follow := lf },
            List.mem_map.mpr ⟨x, hx, by simp [hpx.1, hpx.2]⟩, hpx.1, hpx.2, rfl⟩
  · simp only [hany, if_neg, Bool.not_eq_true]
    exact ⟨{ dest := dest, src := src, status := "active", last_follow := lf },
           List.mem_append.mpr (Or.inr (by simp)), rfl, rfl, rfl⟩

/-- A get-or-create never touches the Activity log. -/
theorem get_or_create_activities (dest src lf : String) (ds : Datastore) :
    (Follower.get_or_create dest src lf ds).activities = ds.activities := by
  unfold Follower.get_or_create
  split <;> rfl

/-- The Follow handler mirrors the Accept delivery response, or rejects with
a 400 before any mutation, or dies with a 500 that never writes an Activity
entry (though it may follow the Follower store write). -/
theorem accept_follow_cases (env : Env) (f fu : JVal) (ds : Datastore) :
    (accept_follow env f fu ds).resp = env.send_resp ∨
    ((accept_follow env f fu ds).resp.status = 400 ∧
     (accept_follow env f fu ds).ds = ds ∧ (accept_follow env f fu ds).events = []) ∨
    ((accept_follow env f fu ds).resp.status = 500 ∧
     (accept_follow env f fu ds).ds.activities = ds.activities) := by
  unfold accept_follow
  dsimp only
  split
  · right; left; exact ⟨rfl, rfl, rfl⟩
  · split
    · split
      · right; left; exact ⟨rfl, rfl, rfl⟩
      · split
        · split
          · left; rfl
          · right; right
            exact ⟨rfl, get_or_create_activities _ _ _ _⟩
        · right; right; exact ⟨rfl, rfl⟩
    · right; right; exact ⟨rfl, rfl⟩

/-- An error from the Undo-Follow handler carries status 400 or 500. -/
theorem undo_follow_error_status (env : Env) (u : JVal) (ds : Datastore) (r : Resp)
    (h : undo_follow env u ds = Except.error r) : r.status = 400 ∨ r.status = 500 := by
  unfold undo_follow at h
  dsimp only at h
  revert h
  split
  · split
    · intro h
      injection h with h
      left; rw [← h]
    · split
      · intro h; cases h
      · intro h; cases h
  · intro h
    injection h with h
    right; rw [← h]

/-- The tail of the inbox handler returns the empty 200 response, or (on the
Follow path) the mirror of the Accept delivery, or a 400 rejection before
any mutation, or a 500 that writes no Activity entry. -/
theorem inbox_rest_cases (env : Env) (ds : Datastore) (activity : JVal) :
    (inbox_rest env ds activity).resp = ⟨"", 200⟩ ∨
    (type_name (activity.get "type") = some "Follow" ∧
     (inbox_rest env ds activity).resp = env.send_resp) ∨
    ((inbox_rest env ds activity).resp.status = 400 ∧
     (inbox_rest env ds activity).ds = ds ∧ (inbox_rest env ds activity).events = []) ∨
    ((inbox_rest env ds activity).resp.status = 500 ∧
     (inbox_rest env ds activity).ds.activities = ds.activities) := by
  by_cases hf : type_name (activity.get "type") = some "Follow"
  · have hr : inbox_rest env ds activity =
        accept_follow env (fetch_actor env activity)
          (env.redirect_unwrap (fetch_actor env activity)) ds := by
      unfold inbox_rest
      dsimp only
      rw [if_pos hf]
    rw [hr]
    rcases accept_follow_cases env (fetch_actor env activity)
        (env.redirect_unwrap (fetch_actor env activity)) ds with hmir | h400 | h500
    · exact Or.inr (Or.inl ⟨hf, hmir⟩)
    · exact Or.inr (Or.inr (Or.inl h400))
    · exact Or.inr (Or.inr (Or.inr h500))
  · unfold inbox_rest
    dsimp only
    simp only [if_neg hf]
    split
    · split
      · left; rfl
      · split
        · right; right; right; exact ⟨rfl, rfl⟩
        · left; rfl
    · left; rfl

/-- An activity whose type is Accept is in the supported set. -/
theorem accept_supported {t : Option JVal} (h : type_name t = some "Accept") :
    isSupported t = true := by
  simp [isSupported, h, SUPPORTED_TYPES]

/-- C1 counterexample: on a public Announce whose actor has exactly one
follower, and that follower is INACTIVE, the inbox handler writes one
Activity entry whose domain list is the inactive follower's src — not the
(empty) set of active followers, contradicting the claim that the domain
list equals exactly the active followers. -/
theorem c1_counterexample :
    (inbox baseEnv dsInactive (some (JVal.jobj actAnnounceL))).ds.activities.map
      (fun e => e.domain) = [["foo.com"]] ∧
    query_active_by_dest dsInactive "http://a/actor" = [] ∧
    ¬ ((inbox baseEnv dsInactive (some (JVal.jobj actAnnounceL))).ds.activities.map
        (fun e => e.domain) = [query_active_by_dest dsInactive "http://a/actor"]) := by
  refine ⟨rfl, rfl, ?_⟩
  intro h
  have h1 : query_active_by_dest dsInactive "http://a/actor" = ([] : List String) := rfl
  rw [h1] at h
  have h2 : (inbox baseEnv dsInactive (some (JVal.jobj actAnnounceL))).ds.activities.map
      (fun e => e.domain) = [["foo.com"]] := rfl
  rw [h2] at h
  simp at h

/-- C1 (corrected): for an incoming publicly-addressed Create or Announce
activity with no webmention-equivalent delivery, whose (fetched) actor has a
truthy string id, the inbox handler writes exactly one Activity log entry —
but its domain list equals the src fields of ALL Follower records whose dest
is the actor id, with no status filter, so inactive followers are included. -/
theorem c1_fanout_includes_inactive_followers (env : Env) (ds : Datastore)
    (l : List (String × JVal)) (a : JVal) (i : String)
    (htr : (JVal.jobj l).truthy = true)
    (hty : type_name ((JVal.jobj l).get "type") = some "Announce" ∨
           type_name ((JVal.jobj l).get "type") = some "Create")
    (hsent : env.send_webmentions_sent = false)
    (hpub : env.is_public (env.redirect_unwrap (fetch_actor env (JVal.jobj l))) = true)
    (hactor : (fetch_actor env (JVal.jobj l)).get "actor" = some a)
    (ha : a.truthy = true)
    (hid : a.get "id" = some (JVal.jstr i))
    (hi : i ≠ "") :
    ∃ entry : Activity,
      (inbox env ds (some (JVal.jobj l))).ds.activities = ds.activities ++ [entry] ∧
      entry.domain = (ds.followers.filter (fun f => f.dest == i)).map (fun f => f.src) ∧
      (inbox env ds (some (JVal.jobj l))).ds.followers = ds.followers ∧
      (inbox env ds (some (JVal.jobj l))).resp = ⟨"", 200⟩ := by
  have hti : (JVal.jstr i).truthy = true := by simp [JVal.truthy, hi]
  obtain ⟨al, hal⟩ := jval_get_some_obj hid
  subst hal
  have hfan : fanout_domains ds ((fetch_actor env (JVal.jobj l)).get "actor") =
      some ((ds.followers.filter (fun f => f.dest == i)).map (fun f => f.src)) := by
    simp [fanout_domains, hactor, ha, hid, hti]
  rcases hty with hty | hty <;>
  · have hsupp : isSupported ((JVal.jobj l).get "type") = true := by
      simp [isSupported, hty, SUPPORTED_TYPES]
    refine ⟨{ source := activity_source (fetch_actor env (JVal.jobj l)), target := "Public",
              direction := "in", protocol := "activitypub",
              domain := (ds.followers.filter (fun f => f.dest == i)).map (fun f => f.src),
              status := "complete",
              source_as2 := env.json_dumps (env.redirect_unwrap (fetch_actor env (JVal.jobj l))) },
            ?_, ?_, ?_, ?_⟩ <;>
      simp [inbox, htr, hty, hsupp, inbox_rest, hsent, hpub, hfan]

/-- C1 witness: the amended theorem applied at the concrete Announce input
whose actor has one inactive follower. -/
theorem c1_witness :
    (JVal.jobj actAnnounceL).truthy = true ∧
    type_name ((JVal.jobj actAnnounceL).get "type") = some "Announce" ∧
    "http://a/actor" ≠ "" ∧
    ∃ entry : Activity,
      (inbox baseEnv dsInactive (some (JVal.jobj actAnnounceL))).ds.activities =
        dsInactive.activities ++ [entry] ∧
      entry.domain = (dsInactive.followers.filter
        (fun f => f.dest == "http://a/actor")).map (fun f => f.src) ∧
      (inbox baseEnv dsInactive (some (JVal.jobj actAnnounceL))).ds.followers =
        dsInactive.followers ∧
      (inbox baseEnv dsInactive (some (JVal.jobj actAnnounceL))).resp = ⟨"", 200⟩ :=
  ⟨rfl, rfl, by decide,
   c1_fanout_includes_inactive_followers baseEnv dsInactive actAnnounceL
     (JVal.jobj [("id", JVal.jstr "http://a/actor")]) "http://a/actor"
     rfl (Or.inl rfl) rfl rfl rfl rfl rfl (by decide)⟩

/-- C2 (confirmed): for a valid Follow whose actor is an object with a
non-empty string inbox and id, and whose followee values are truthy,
processing leaves exactly one active Follower record keyed by (followee
domain, follower id) — under the keyed-store invariant that at most one
record carried the key before — and the event trace holds exactly one
outbound delivery: the Accept activity sent to the follower's inbox. -/
theorem c2_follow_one_active_follower_one_accept (env : Env) (ds : Datastore)
    (follow follow_unwrapped fe feu : JVal)
    (fl : List (String × JVal)) (ib fid : String)
    (hfe : follow.get "object" = some fe) (hfet : fe.truthy = true)
    (hfeu : follow_unwrapped.get "object" = some feu) (hfeut : feu.truthy = true)
    (hfr : follow.get "actor" = some (JVal.jobj fl)) (hfrt : (JVal.jobj fl).truthy = true)
    (hib : (JVal.jobj fl).get "inbox" = some (JVal.jstr ib)) (hibne : ib ≠ "")
    (hfid : (JVal.jobj fl).get "id" = some (JVal.jstr fid)) (hfidne : fid ≠ "")
    (hinv : (ds.followers.filter
        (fun f => f.dest == env.domain_from_link feu && f.src == fid)).length ≤ 1) :
    (((accept_follow env follow follow_unwrapped ds).ds.followers.filter
        (fun f => f.dest == env.domain_from_link feu && f.src == fid)).length = 1) ∧
    (∀ f ∈ (accept_follow env follow follow_unwrapped ds).ds.followers,
        f.dest = env.domain_from_link feu → f.src = fid → f.status = "active") ∧
    ((accept_follow env follow follow_unwrapped ds).events =
      [Event.putFollower (env.domain_from_link feu) fid,
       Event.sendAP (accept_activity env follow fe (JVal.jstr fid) (env.domain_from_link feu))
         ib (env.domain_from_link feu),
       Event.sendWebmentions (env.json_dumps follow_unwrapped)]) := by
  have htib : (JVal.jstr ib).truthy = true := by simp [JVal.truthy, hibne]
  have htfid : (JVal.jstr fid).truthy = true := by simp [JVal.truthy, hfidne]
  have hred : accept_follow env follow follow_unwrapped ds =
      ⟨⟨env.send_resp.text, env.send_resp.status⟩,
       Follower.get_or_create (env.domain_from_link feu) fid (env.json_dumps follow) ds,
       [Event.putFollower (env.domain_from_link feu) fid,
        Event.sendAP (accept_activity env follow fe (JVal.jstr fid) (env.domain_from_link feu))
          ib (env.domain_from_link feu),
        Event.sendWebmentions (env.json_dumps follow_unwrapped)]⟩ := by
    simp [accept_follow, hfe, hfeu, hfr, otruthy, hfet, hfeut, hfrt, hib, hfid, htib, htfid]
  rw [hred]
  exact ⟨get_or_create_key_count _ _ _ _ hinv,
         get_or_create_all_active _ _ _ _,
         rfl⟩

/-- C2 witness: the theorem applied to the concrete Follow fixture over the
empty store. -/
theorem c2_witness :
    (JVal.jobj actFollowL).get "object" = some (JVal.jstr "https://foo.com/") ∧
    ((dsEmpty.followers.filter
        (fun f => f.dest == baseEnv.domain_from_link (JVal.jstr "https://foo.com/") &&
          f.src == "http://fr/actor")).length ≤ 1) ∧
    ((((accept_follow baseEnv (JVal.jobj actFollowL) (JVal.jobj actFollowL) dsEmpty).ds.followers.filter
        (fun f => f.dest == baseEnv.domain_from_link (JVal.jstr "https://foo.com/") &&
          f.src == "http://fr/actor")).length = 1) ∧
     (∀ f ∈ (accept_follow baseEnv (JVal.jobj actFollowL) (JVal.jobj actFollowL) dsEmpty).ds.followers,
        f.dest = baseEnv.domain_from_link (JVal.jstr "https://foo.com/") →
        f.src = "http://fr/actor" → f.status = "active") ∧
     ((accept_follow baseEnv (JVal.jobj actFollowL) (JVal.jobj actFollowL) dsEmpty).events =
       [Event.putFollower (baseEnv.domain_from_link (JVal.jstr "https://foo.com/")) "http://fr/actor",
        Event.sendAP (accept_activity baseEnv (JVal.jobj actFollowL) (JVal.jstr "https://foo.com/")
            (JVal.jstr "http://fr/actor") (baseEnv.domain_from_link (JVal.jstr "https://foo.com/")))
          "http://fr/inbox" (baseEnv.domain_from_link (JVal.jstr "https://foo.com/")),
        Event.sendWebmentions (baseEnv.json_dumps (JVal.jobj actFollowL))])) :=
  ⟨rfl, by decide,
   c2_follow_one_active_follower_one_accept baseEnv dsEmpty
     (JVal.jobj actFollowL) (JVal.jobj actFollowL)
     (JVal.jstr "https://foo.com/") (JVal.jstr "https://foo.com/")
     [("id", JVal.jstr "http://fr/actor"), ("inbox", JVal.jstr "http://fr/inbox")]
     "http://fr/inbox" "http://fr/actor"
     rfl rfl rfl rfl rfl rfl rfl (by decide) rfl (by decide) (by decide)⟩

/-- C3 counterexample: Like is in SUPPORTED_TYPES, so an incoming Like is
NOT rejected with the unsupported-type signal: the inbox returns the empty
200 response (and leaves the store unchanged), contradicting the claim that
a Like yields a rejection response. -/
theorem c3_counterexample :
    "Like" ∈ SUPPORTED_TYPES ∧
    (inbox baseEnv dsInactive (some (JVal.jobj actLikeL))).resp = ⟨"", 200⟩ ∧
    (inbox baseEnv dsInactive (some (JVal.jobj actLikeL))).resp.status ≠ 501 ∧
    (inbox baseEnv dsInactive (some (JVal.jobj actLikeL))).ds = dsInactive :=
  ⟨by decide, rfl, by decide, rfl⟩

/-- C3 (corrected): an incoming Like activity is a supported type: the inbox
handler does not reject it; it returns the empty 200 response, leaves the
datastore unchanged, and proceeds to the webmention-delivery path. -/
theorem c3_like_supported_not_rejected (env : Env) (ds : Datastore)
    (l : List (String × JVal))
    (htr : (JVal.jobj l).truthy = true)
    (hty : type_name ((JVal.jobj l).get "type") = some "Like") :
    inbox env ds (some (JVal.jobj l)) =
      ⟨⟨"", 200⟩, ds,
       [Event.sendWebmentions (env.json_dumps (env.redirect_unwrap (fetch_actor env (JVal.jobj l))))]⟩ := by
  have hsupp : isSupported ((JVal.jobj l).get "type") = true := by
    simp [isSupported, hty, SUPPORTED_TYPES]
  simp [inbox, htr, hty, hsupp, inbox_rest]

/-- C3 witness: the amended theorem applied at the concrete Like input. -/
theorem c3_witness :
    (JVal.jobj actLikeL).truthy = true ∧
    type_name ((JVal.jobj actLikeL).get "type") = some "Like" ∧
    inbox baseEnv dsInactive (some (JVal.jobj actLikeL)) =
      ⟨⟨"", 200⟩, dsInactive,
       [Event.sendWebmentions (baseEnv.json_dumps
         (baseEnv.redirect_unwrap (fetch_actor baseEnv (JVal.jobj actLikeL))))]⟩ :=
  ⟨rfl, rfl, c3_like_supported_not_rejected baseEnv dsInactive actLikeL rfl rfl⟩

/-- C4 counterexample: with an Accept delivery that fails (502), the Follower
record is still stored and active, but the inbound Follow request does NOT
return success: its response status is the delivery's 502, contradicting the
claim that the inbound request still returns success. -/
theorem c4_counterexample :
    (inbox envFailedSend dsEmpty (some (JVal.jobj actFollowL))).resp.status = 502 ∧
    (inbox envFailedSend dsEmpty (some (JVal.jobj actFollowL))).resp.status ≠ 200 ∧
    (inbox envFailedSend dsEmpty (some (JVal.jobj actFollowL))).ds.followers =
      [{ dest := "https://foo.com/", src := "http://fr/actor",
         status := "active", last_follow := "{}" }] :=
  ⟨rfl, by decide, rfl⟩

/-- C4 (corrected): in Follow processing the Follower record is persisted
before the Accept delivery is attempted (the putFollower event precedes the
sendAP event in the trace), and an active record with the key is in the
store whatever the delivery outcome — but the inbound response carries the
Accept delivery's text and status, not unconditional success. -/
theorem c4_store_before_accept_delivery (env : Env) (ds : Datastore)
    (l fl : List (String × JVal)) (fe feu : JVal) (ib fid : String)
    (htr : (JVal.jobj l).truthy = true)
    (hty : type_name ((JVal.jobj l).get "type") = some "Follow")
    (hfe : (fetch_actor env (JVal.jobj l)).get "object" = some fe) (hfet : fe.truthy = true)
    (hfeu : (env.redirect_unwrap (fetch_actor env (JVal.jobj l))).get "object" = some feu)
    (hfeut : feu.truthy = true)
    (hfr : (fetch_actor env (JVal.jobj l)).get "actor" = some (JVal.jobj fl))
    (hfrt : (JVal.jobj fl).truthy = true)
    (hib : (JVal.jobj fl).get "inbox" = some (JVal.jstr ib)) (hibne : ib ≠ "")
    (hfid : (JVal.jobj fl).get "id" = some (JVal.jstr fid)) (hfidne : fid ≠ "") :
    ((inbox env ds (some (JVal.jobj l))).events =
      [Event.putFollower (env.domain_from_link feu) fid,
       Event.sendAP (accept_activity env (fetch_actor env (JVal.jobj l)) fe (JVal.jstr fid)
           (env.domain_from_link feu)) ib (env.domain_from_link feu),
       Event.sendWebmentions (env.json_dumps (env.redirect_unwrap (fetch_actor env (JVal.jobj l))))]) ∧
    (∃ f ∈ (inbox env ds (some (JVal.jobj l))).ds.followers,
        f.dest = env.domain_from_link feu ∧ f.src = fid ∧ f.status = "active") ∧
    (inbox env ds (some (JVal.jobj l))).resp = env.send_resp := by
  have hsupp : isSupported ((JVal.jobj l).get "type") = true := by
    simp [isSupported, hty, SUPPORTED_TYPES]
  have htib : (JVal.jstr ib).truthy = true := by simp [JVal.truthy, hibne]
  have htfid : (JVal.jstr fid).truthy = true := by simp [JVal.truthy, hfidne]
  have hinner : inbox env ds (some (JVal.jobj l)) =
      accept_follow env (fetch_actor env (JVal.jobj l))
        (env.redirect_unwrap (fetch_actor env (JVal.jobj l))) ds := by
    simp [inbox, htr, hty, hsupp, inbox_rest]
  have hred : accept_follow env (fetch_actor env (JVal.jobj l))
      (env.redirect_unwrap (fetch_actor env (JVal.jobj l))) ds =
      ⟨⟨env.send_resp.text, env.send_resp.status⟩,
       Follower.get_or_create (env.domain_from_link feu) fid
         (env.json_dumps (fetch_actor env (JVal.jobj l))) ds,
       [Event.putFollower (env.domain_from_link feu) fid,
        Event.sendAP (accept_activity env (fetch_actor env (JVal.jobj l)) fe (JVal.jstr fid)
            (env.domain_from_link feu)) ib (env.domain_from_link feu),
        Event.sendWebmentions (env.json_dumps (env.redirect_unwrap (fetch_actor env (JVal.jobj l))))]⟩ := by
    simp [accept_follow, hfe, hfeu, hfr, otruthy, hfet, hfeut, hfrt, hib, hfid, htib, htfid]
  rw [hinner, hred]
  exact ⟨rfl, get_or_create_mem _ _ _ _, rfl⟩

/-- C4 witness: the amended theorem applied at the concrete Follow input with
a failing (502) Accept delivery. -/
theorem c4_witness :
    type_name ((JVal.jobj actFollowL).get "type") = some "Follow" ∧
    ((inbox envFailedSend dsEmpty (some (JVal.jobj actFollowL))).events =
      [Event.putFollower (envFailedSend.domain_from_link (JVal.jstr "https://foo.com/")) "http://fr/actor",
       Event.sendAP (accept_activity envFailedSend (fetch_actor envFailedSend (JVal.jobj actFollowL))
           (JVal.jstr "https://foo.com/") (JVal.jstr "http://fr/actor")
           (envFailedSend.domain_from_link (JVal.jstr "https://foo.com/")))
         "http://fr/inbox" (envFailedSend.domain_from_link (JVal.jstr "https://foo.com/")),
       Event.sendWebmentions (envFailedSend.json_dumps
         (envFailedSend.redirect_unwrap (fetch_actor envFailedSend (JVal.jobj actFollowL))))]) ∧
    (∃ f ∈ (inbox envFailedSend dsEmpty (some (JVal.jobj actFollowL))).ds.followers,
        f.dest = envFailedSend.domain_from_link (JVal.jstr "https://foo.com/") ∧
        f.src = "http://fr/actor" ∧ f.status = "active") ∧
    (inbox envFailedSend dsEmpty (some (JVal.jobj actFollowL))).resp = envFailedSend.send_resp :=
  ⟨rfl,
   c4_store_before_accept_delivery envFailedSend dsEmpty actFollowL
     [("id", JVal.jstr "http://fr/actor"), ("inbox", JVal.jstr "http://fr/inbox")]
     (JVal.jstr "https://foo.com/") (JVal.jstr "https://foo.com/")
     "http://fr/inbox" "http://fr/actor"
     rfl rfl rfl rfl rfl rfl rfl rfl rfl (by decide) rfl (by decide)⟩

/-- C5 (confirmed): for an Undo-Follow whose inner Follow carries truthy
actor and followee, the undo succeeds; running the same undo again yields
the same store (idempotent); every record carrying the key is inactive
afterwards; and when no record carries the key, the store is unchanged
(a silent no-op, not an error). -/
theorem c5_undo_follow_idempotent_and_noop_on_missing (env : Env) (u : JVal)
    (ds : Datastore) (fr fe : JVal)
    (hfr : ((u.get "object").getD (JVal.jobj [])).get "actor" = some fr)
    (hfrt : fr.truthy = true)
    (hfe : ((u.get "object").getD (JVal.jobj [])).get "object" = some fe)
    (hfet : fe.truthy = true) :
    ∃ ds2 evs, undo_follow env u ds = Except.ok (ds2, evs) ∧
      (∃ evs2, undo_follow env u ds2 = Except.ok (ds2, evs2)) ∧
      (∀ f ∈ ds2.followers, f.dest = env.domain_from_link fe →
          f.src = pyToStr env fr → f.status = "inactive") ∧
      ((∀ f ∈ ds.followers, ¬(f.dest = env.domain_from_link fe ∧ f.src = pyToStr env fr)) →
          ds2 = ds) := by
  obtain ⟨m, hm⟩ := jval_get_some_obj hfr
  have hfr2 : (JVal.jobj m).get "actor" = some fr := hm ▸ hfr
  have hfe2 : (JVal.jobj m).get "object" = some fe := hm ▸ hfe
  set d := env.domain_from_link fe with hdd
  set s := pyToStr env fr with hss
  set p : Follower → Bool := fun f => f.dest == d && f.src == s with hpp
  set g : Follower → Follower :=
    fun f => if p f then { f with status := "inactive" } else f with hgg0
  have hpg : ∀ x, p (g x) = p x := by
    intro x
    by_cases hx : p x = true
    · simp only [hgg0, if_pos hx]
    · simp only [hgg0, if_neg hx]
  have hgg : ∀ x, g (g x) = g x := by
    intro x
    by_cases hx : p x = true
    · have h1 : g x = { x with status := "inactive" } := by simp only [hgg0, if_pos hx]
      have hpx2 : p { x with status := "inactive" } = true := by
        have h2 : p { x with status := "inactive" } = p x := rfl
        rw [h2]; exact hx
      rw [h1]
      simp only [hgg0, if_pos hpx2]
    · have h1 : g x = x := by simp only [hgg0, if_neg hx]
      rw [h1, h1]
  have hred : ∀ dsx : Datastore, undo_follow env u dsx =
      (if dsx.followers.any p then
        Except.ok ({ dsx with followers := dsx.followers.map g }, [Event.putFollower d s])
      else Except.ok (dsx, [])) := by
    intro dsx
    simp only [undo_follow, hm, hfr2, hfe2, otruthy, hfrt, hfet]
    simp [Option.getD, hpp, hgg0, hdd, hss]
  by_cases hany : ds.followers.any p = true
  · refine ⟨{ ds with followers := ds.followers.map g }, [Event.putFollower d s], ?_, ?_, ?_, ?_⟩
    · rw [hred]; simp [hany]
    · have hany2 : (ds.followers.map g).any p = true := by
        rw [List.any_map]
        have h3 : (p ∘ g) = p := funext hpg
        rw [h3]; exact hany
      have hmapmap : (ds.followers.map g).map g = ds.followers.map g := by
        rw [List.map_map]
        exact List.map_congr_left (fun x _ => hgg x)
      refine ⟨[Event.putFollower d s], ?_⟩
      rw [hred]
      simp only [hany2, if_pos]
      rw [hmapmap]
    · intro f hf hfd hfs
      rcases List.mem_map.mp hf with ⟨x, hx, hgx⟩
      by_cases hpx : p x = true
      · rw [← hgx]
        simp only [hgg0, if_pos hpx]
      · rw [show g x = x from by simp only [hgg0, if_neg hpx]] at hgx
        subst hgx
        exact absurd (by simp [hpp, hfd, hfs]) hpx
    · intro hnone
      exfalso
      rcases List.any_eq_true.mp hany with ⟨x, hx, hpx⟩
      exact hnone x hx (by simpa [hpp] using hpx)
  · refine ⟨ds, [], ?_, ?_, ?_, ?_⟩
    · rw [hred]; simp [hany]
    · exact ⟨[], by rw [hred]; simp [hany]⟩
    · intro f hf hfd hfs
      exfalso
      have hall := (List.any_eq_true).not.mp hany
      push_neg at hall
      exact absurd (by simp [hpp, hfd, hfs]) (hall f hf)
    · intro _; rfl

/-- C5 witness: the theorem applied to the concrete Undo-Follow fixture over
a store holding the matching active record. -/
theorem c5_witness :
    ((JVal.jobj actUndoL).get "object").getD (JVal.jobj []) =
      JVal.jobj [("type", JVal.jstr "Follow"),
                 ("actor", JVal.jstr "http://fr/actor"),
                 ("object", JVal.jstr "https://foo.com/")] ∧
    ∃ ds2 evs, undo_follow baseEnv (JVal.jobj actUndoL) dsOneActive = Except.ok (ds2, evs) ∧
      (∃ evs2, undo_follow baseEnv (JVal.jobj actUndoL) ds2 = Except.ok (ds2, evs2)) ∧
      (∀ f ∈ ds2.followers, f.dest = baseEnv.domain_from_link (JVal.jstr "https://foo.com/") →
          f.src = pyToStr baseEnv (JVal.jstr "http://fr/actor") → f.status = "inactive") ∧
      ((∀ f ∈ dsOneActive.followers,
          ¬(f.dest = baseEnv.domain_from_link (JVal.jstr "https://foo.com/") ∧
            f.src = pyToStr baseEnv (JVal.jstr "http://fr/actor"))) → ds2 = dsOneActive) :=
  ⟨rfl,
   c5_undo_follow_idempotent_and_noop_on_missing baseEnv (JVal.jobj actUndoL) dsOneActive
     (JVal.jstr "http://fr/actor") (JVal.jstr "https://foo.com/")
     rfl (by decide) rfl (by decide)⟩

/-- C6 counterexample: on a handled Follow whose Accept delivery answers
with body "accepted!" and status 202, the inbox response mirrors that
delivery: its body is non-empty and its status is neither 200, 501 nor 400,
contradicting the claim that every handled path returns an empty 200. -/
theorem c6_counterexample :
    (inbox envAccepted dsEmpty (some (JVal.jobj actFollowL))).resp = ⟨"accepted!", 202⟩ ∧
    (inbox envAccepted dsEmpty (some (JVal.jobj actFollowL))).resp.text ≠ "" ∧
    (inbox envAccepted dsEmpty (some (JVal.jobj actFollowL))).resp.status ≠ 200 ∧
    (inbox envAccepted dsEmpty (some (JVal.jobj actFollowL))).resp.status ≠ 501 ∧
    (inbox envAccepted dsEmpty (some (JVal.jobj actFollowL))).resp.status ≠ 400 :=
  ⟨rfl, by decide, by decide, by decide, by decide⟩

/-- C6 (corrected): for bodies whose truthy parse is a JSON object, the inbox
handler behaves as follows.  A missing or falsy parse yields status 400 with
no store mutation and no side effect; an unsupported type yields status 501
likewise; and every response is the empty 200, or the mirror of the Accept
delivery response on the Follow path, or a 400/501 rejection raised before
any state mutation, or a 500 server error on an ill-shaped payload — which
never writes an Activity log entry, but can occur after the webmention
attempt and, on the Follow path, after the Follower record was stored. -/
theorem c6_response_shapes (env : Env) (ds : Datastore) (body : Option JVal)
    (hshape : ∀ v, body = some v → v.truthy = true → ∃ l, v = JVal.jobj l) :
    ((body = none ∨ ∃ v, body = some v ∧ v.truthy = false) →
        (inbox env ds body).resp.status = 400 ∧ (inbox env ds body).ds = ds ∧
        (inbox env ds body).events = []) ∧
    (∀ v, body = some v → v.truthy = true → isSupported (v.get "type") = false →
        (inbox env ds body).resp.status = 501 ∧ (inbox env ds body).ds = ds ∧
        (inbox env ds body).events = []) ∧
    ((inbox env ds body).resp = ⟨"", 200⟩ ∨
     (∃ v, body = some v ∧ type_name (v.get "type") = some "Follow" ∧
        (inbox env ds body).resp = env.send_resp) ∨
     (((inbox env ds body).resp.status = 400 ∨ (inbox env ds body).resp.status = 501) ∧
      (inbox env ds body).ds = ds ∧ (inbox env ds body).events = []) ∨
     ((inbox env ds body).resp.status = 500 ∧
      (inbox env ds body).ds.activities = ds.activities)) := by
  cases body with
  | none =>
    refine ⟨fun _ => ⟨rfl, rfl, rfl⟩, ?_, ?_⟩
    · intro v hv
      simp at hv
    · right; right; left
      exact ⟨Or.inl rfl, rfl, rfl⟩
  | some v =>
    by_cases htv : v.truthy = true
    · obtain ⟨l, rfl⟩ := hshape v rfl htv
      refine ⟨?_, ?_, ?_⟩
      · rintro (h | ⟨v2, hv2, ht2⟩)
        · simp at h
        · rw [Option.some_inj] at hv2
          subst hv2
          rw [htv] at ht2
          cases ht2
      · intro v2 hv2 htv2 hsup
        rw [Option.some_inj] at hv2
        subst hv2
        have hacc : ¬ type_name ((JVal.jobj l).get "type") = some "Accept" := by
          intro hacc
          rw [accept_supported hacc] at hsup
          cases hsup
        refine ⟨?_, ?_, ?_⟩ <;> simp [inbox, htv, hacc, hsup]
      · by_cases hacc : type_name ((JVal.jobj l).get "type") = some "Accept"
        · left
          simp [inbox, htv, hacc]
        · by_cases hsup : isSupported ((JVal.jobj l).get "type") = true
          · by_cases hund : type_name ((JVal.jobj l).get "type") = some "Undo"
            · cases hobj : parse_obj (JVal.jobj l) with
              | jarr a =>
                right; right; right
                constructor <;> simp [inbox, htv, hacc, hsup, hund, hobj]
              | jobj m =>
                by_cases hfol : type_name ((JVal.jobj m).get "type") = some "Follow"
                · cases hu : undo_follow env (env.redirect_unwrap (JVal.jobj l)) ds with
                  | error r =>
                    have hst := undo_follow_error_status env _ ds r hu
                    have hred : inbox env ds (some (JVal.jobj l)) = ⟨r, ds, []⟩ := by
                      simp [inbox, htv, hacc, hsup, hund, hobj, hfol, hu]
                    rw [hred]
                    rcases hst with h | h
                    · exact Or.inr (Or.inr (Or.inl ⟨Or.inl h, rfl, rfl⟩))
                    · exact Or.inr (Or.inr (Or.inr ⟨h, rfl⟩))
                  | ok pr =>
                    obtain ⟨ds2, evs⟩ := pr
                    left
                    simp [inbox, htv, hacc, hsup, hund, hobj, hfol, hu]
                · have hred : inbox env ds (some (JVal.jobj l)) = inbox_rest env ds (JVal.jobj l) := by
                    simp [inbox, htv, hacc, hsup, hund, hobj, hfol]
                  rw [hred]
                  rcases inbox_rest_cases env ds (JVal.jobj l) with h200 | ⟨hF, _⟩ | h400 | h500
                  · exact Or.inl h200
                  · rw [hund] at hF
                    simp at hF
                  · exact Or.inr (Or.inr (Or.inl ⟨Or.inl h400.1, h400.2⟩))
                  · exact Or.inr (Or.inr (Or.inr h500))
              | jnull =>
                have hnf : type_name (JVal.jnull.get "type") = none := rfl
                have hred : inbox env ds (some (JVal.jobj l)) = inbox_rest env ds (JVal.jobj l) := by
                  simp [inbox, htv, hacc, hsup, hund, hobj, hnf]
                rw [hred]
                rcases inbox_rest_cases env ds (JVal.jobj l) with h200 | ⟨hF, _⟩ | h400 | h500
                · exact Or.inl h200
                · rw [hund] at hF
                  simp at hF
                · exact Or.inr (Or.inr (Or.inl ⟨Or.inl h400.1, h400.2⟩))
                · exact Or.inr (Or.inr (Or.inr h500))
              | jstr st =>
                have hnf : type_name ((JVal.jstr st).get "type") = none := rfl
                have hred : inbox env ds (some (JVal.jobj l)) = inbox_rest env ds (JVal.jobj l) := by
                  simp [inbox, htv, hacc, hsup, hund, hobj, hnf]
                rw [hred]
                rcases inbox_rest_cases env ds (JVal.jobj l) with h200 | ⟨hF, _⟩ | h400 | h500
                · exact Or.inl h200
                · rw [hund] at hF
                  simp at hF
                · exact Or.inr (Or.inr (Or.inl ⟨Or.inl h400.1, h400.2⟩))
                · exact Or.inr (Or.inr (Or.inr h500))
            · by_cases hdel : type_name ((JVal.jobj l).get "type") = some "Delete"
              · cases hobj : parse_obj (JVal.jobj l) with
                | jarr a =>
                  right; right; right
                  constructor <;> simp [inbox, htv, hacc, hsup, hund, hdel, hobj]
                | jobj m =>
                  left; simp [inbox, htv, hacc, hsup, hund, hdel, hobj]
                | jnull =>
                  left; simp [inbox, htv, hacc, hsup, hund, hdel, hobj]
                | jstr st =>
                  left; simp [inbox, htv, hacc, hsup, hund, hdel, hobj]
              · have hred : inbox env ds (some (JVal.jobj l)) = inbox_rest env ds (JVal.jobj l) := by
                  simp [inbox, htv, hacc, hsup, hund, hdel]
                rw [hred]
                rcases inbox_rest_cases env ds (JVal.jobj l) with h200 | ⟨hF, hmir⟩ | h400 | h500
                · exact Or.inl h200
                · exact Or.inr (Or.inl ⟨JVal.jobj l, rfl, hF, hmir⟩)
                · exact Or.inr (Or.inr (Or.inl ⟨Or.inl h400.1, h400.2⟩))
                · exact Or.inr (Or.inr (Or.inr h500))
          · right; right; left
            refine ⟨Or.inr ?_, ?_, ?_⟩ <;> simp [inbox, htv, hacc, hsup]
    · have htv2 : v.truthy = false := by
        cases h : v.truthy
        · rfl
        · exact absurd h htv
      refine ⟨?_, ?_, ?_⟩
      · intro _
        refine ⟨?_, ?_, ?_⟩ <;> simp [inbox, htv2]
      · intro v2 hv2 ht2 _
        rw [Option.some_inj] at hv2
        subst hv2
        rw [htv2] at ht2
        cases ht2
      · right; right; left
        refine ⟨Or.inl ?_, ?_, ?_⟩ <;> simp [inbox, htv2]

/-- C6 witness: the amended theorem applied at the concrete Follow input with
an Accept delivery answering 202; the Follow-mirror disjunct of the
response-shape conclusion holds there. -/
theorem c6_witness :
    ((some (JVal.jobj actFollowL) = none ∨
        ∃ v, some (JVal.jobj actFollowL) = some v ∧ v.truthy = false) →
      (inbox envAccepted dsEmpty (some (JVal.jobj actFollowL))).resp.status = 400 ∧
      (inbox envAccepted dsEmpty (some (JVal.jobj actFollowL))).ds = dsEmpty ∧
      (inbox envAccepted dsEmpty (some (JVal.jobj actFollowL))).events = []) ∧
    (∀ v, some (JVal.jobj actFollowL) = some v → v.truthy = true →
        isSupported (v.get "type") = false →
      (inbox envAccepted dsEmpty (some (JVal.jobj actFollowL))).resp.status = 501 ∧
      (inbox envAccepted dsEmpty (some (JVal.jobj actFollowL))).ds = dsEmpty ∧
      (inbox envAccepted dsEmpty (some (JVal.jobj actFollowL))).events = []) ∧
    ((inbox envAccepted dsEmpty (some (JVal.jobj actFollowL))).resp = ⟨"", 200⟩ ∨
     (∃ v, some (JVal.jobj actFollowL) = some v ∧ type_name (v.get "type") = some "Follow" ∧
        (inbox envAccepted dsEmpty (some (JVal.jobj actFollowL))).resp = envAccepted.send_resp) ∨
     (((inbox envAccepted dsEmpty (some (JVal.jobj actFollowL))).resp.status = 400 ∨
       (inbox envAccepted dsEmpty (some (JVal.jobj actFollowL))).resp.status = 501) ∧
      (inbox envAccepted dsEmpty (some (JVal.jobj actFollowL))).ds = dsEmpty ∧
      (inbox envAccepted dsEmpty (some (JVal.jobj actFollowL))).events = []) ∨
     ((inbox envAccepted dsEmpty (some (JVal.jobj actFollowL))).resp.status = 500 ∧
      (inbox envAccepted dsEmpty (some (JVal.jobj actFollowL))).ds.activities = dsEmpty.activities)) :=
  c6_response_shapes envAccepted dsEmpty (some (JVal.jobj actFollowL))
    (fun _ hv _ => ⟨actFollowL, (Option.some_inj.mp hv).symm⟩)

/-- C7 (confirmed): for an incoming Delete activity (whose object field, if
truthy, is a string or an object, as the required inbound shape demands),
the inbox handler is a no-op: it returns the empty 200 response, emits no
side effect, and leaves every Follower and Activity record unchanged. -/
theorem c7_delete_is_noop (env : Env) (ds : Datastore) (l : List (String × JVal))
    (htr : (JVal.jobj l).truthy = true)
    (hty : type_name ((JVal.jobj l).get "type") = some "Delete")
    (hobj : ∀ v, (JVal.jobj l).get "object" = some v → v.truthy = true →
      (∃ s, v = JVal.jstr s) ∨ (∃ m, v = JVal.jobj m)) :
    inbox env ds (some (JVal.jobj l)) = ⟨⟨"", 200⟩, ds, []⟩ := by
  obtain ⟨m, hm⟩ := parse_obj_is_obj hobj
  have hsupp : isSupported ((JVal.jobj l).get "type") = true := by
    simp [isSupported, hty, SUPPORTED_TYPES]
  simp [inbox, htr, hty, hm, hsupp]

/-- C7 witness: the theorem applied at the concrete Delete input over the
store holding one follower record of the deleted actor. -/
theorem c7_witness :
    (JVal.jobj actDeleteL).truthy = true ∧
    type_name ((JVal.jobj actDeleteL).get "type") = some "Delete" ∧
    inbox baseEnv dsOneActive (some (JVal.jobj actDeleteL)) = ⟨⟨"", 200⟩, dsOneActive, []⟩ :=
  ⟨rfl, rfl,
   c7_delete_is_noop baseEnv dsOneActive actDeleteL rfl rfl
     (fun v hv _ => Or.inl ⟨"http://gone/actor", (Option.some_inj.mp hv).symm⟩)⟩

/-- C8 (confirmed): an incoming Create activity that is not publicly
addressed, when no webmention-equivalent delivery occurred, creates no
Activity log entry, changes no stored record, and returns the empty 200
response (the webmention attempt being the only emitted side effect). -/
theorem c8_nonpublic_create_writes_nothing (env : Env) (ds : Datastore)
    (l : List (String × JVal))
    (htr : (JVal.jobj l).truthy = true)
    (hty : type_name ((JVal.jobj l).get "type") = some "Create")
    (hsent : env.send_webmentions_sent = false)
    (hpub : env.is_public (env.redirect_unwrap (fetch_actor env (JVal.jobj l))) = false) :
    inbox env ds (some (JVal.jobj l)) =
      ⟨⟨"", 200⟩, ds,
       [Event.sendWebmentions (env.json_dumps (env.redirect_unwrap (fetch_actor env (JVal.jobj l))))]⟩ := by
  have hsupp : isSupported ((JVal.jobj l).get "type") = true := by
    simp [isSupported, hty, SUPPORTED_TYPES]
  simp [inbox, htr, hty, hsupp, inbox_rest, hsent, hpub]

/-- C8 witness: the theorem applied at the concrete non-public Create input. -/
theorem c8_witness :
    type_name ((JVal.jobj actCreateL).get "type") = some "Create" ∧
    envNonPublic.send_webmentions_sent = false ∧
    inbox envNonPublic dsInactive (some (JVal.jobj actCreateL)) =
      ⟨⟨"", 200⟩, dsInactive,
       [Event.sendWebmentions (envNonPublic.json_dumps
         (envNonPublic.redirect_unwrap (fetch_actor envNonPublic (JVal.jobj actCreateL))))]⟩ :=
  ⟨rfl, rfl,
   c8_nonpublic_create_writes_nothing envNonPublic dsInactive actCreateL rfl rfl rfl rfl⟩

/-- C9 (confirmed): in signed delivery the Digest header is the string
SHA-256= followed by the base64 of the SHA-256 hash of exactly the body
bytes that are transmitted — the one serialization of the activity, used
both for signing and for transmission — the Signature is computed over that
same digest and the fixed timestamp with the sending user's key, and two
runs agreeing on the private key, the serialized body and the timestamp
(and on the hashing, signing, and host-extraction algorithms) produce
byte-for-byte identical results. -/
theorem c9_digest_over_sent_bytes_deterministic (e1 e2 : CryptoEnv) (activity : JVal)
    (inbox_url user_domain : String)
    (hk : e1.private_pem = e2.private_pem)
    (hb : e1.json_dumps activity = e2.json_dumps activity)
    (hd : e1.date = e2.date)
    (hh : e1.sha256 = e2.sha256)
    (hs : e1.rsa_sign = e2.rsa_sign)
    (hu : e1.host_url = e2.host_url)
    (hdl : e1.domain_from_link = e2.domain_from_link) :
    ((send e1 activity inbox_url user_domain).digest =
      "SHA-256=" ++ b64encode (e1.sha256 (send e1 activity inbox_url user_domain).body)) ∧
    ((send e1 activity inbox_url user_domain).body = e1.json_dumps activity) ∧
    ((send e1 activity inbox_url user_domain).signature =
      e1.rsa_sign (e1.private_pem user_domain) (e1.host_url ++ user_domain) e1.date
        (send e1 activity inbox_url user_domain).digest
        (send e1 activity inbox_url user_domain).host) ∧
    (send e1 activity inbox_url user_domain = send e2 activity inbox_url user_domain) := by
  refine ⟨rfl, rfl, rfl, ?_⟩
  unfold send
  rw [hk, hb, hd, hh, hs, hu, hdl]

/-- C9 witness: the theorem applied to two identical concrete crypto
environments at a concrete activity. -/
theorem c9_witness :
    cryptoFix.private_pem = cryptoFix.private_pem ∧
    ((send cryptoFix (JVal.jobj actCreateL) "http://fr/inbox" "foo.com").digest =
      "SHA-256=" ++ b64encode (cryptoFix.sha256
        (send cryptoFix (JVal.jobj actCreateL) "http://fr/inbox" "foo.com").body)) ∧
    ((send cryptoFix (JVal.jobj actCreateL) "http://fr/inbox" "foo.com").body =
      cryptoFix.json_dumps (JVal.jobj actCreateL)) ∧
    ((send cryptoFix (JVal.jobj actCreateL) "http://fr/inbox" "foo.com").signature =
      cryptoFix.rsa_sign (cryptoFix.private_pem "foo.com") (cryptoFix.host_url ++ "foo.com")
        cryptoFix.date
        (send cryptoFix (JVal.jobj actCreateL) "http://fr/inbox" "foo.com").digest
        (send cryptoFix (JVal.jobj actCreateL) "http://fr/inbox" "foo.com").host) ∧
    (send cryptoFix (JVal.jobj actCreateL) "http://fr/inbox" "foo.com" =
      send cryptoFix (JVal.jobj actCreateL) "http://fr/inbox" "foo.com") :=
  ⟨rfl, c9_digest_over_sent_bytes_deterministic cryptoFix cryptoFix
    (JVal.jobj actCreateL) "http://fr/inbox" "foo.com" rfl rfl rfl rfl rfl rfl rfl⟩

/-- C10 (confirmed): an inbound Undo whose object field is a bare string (a
Follow activity id) does not take the Undo-Follow path: no Follower record
is touched and the store is unchanged; the activity falls through to the
actor-fetch and webmention-delivery path and returns the empty 200 response. -/
theorem c10_string_undo_object_skips_undo_follow (env : Env) (ds : Datastore)
    (l : List (String × JVal)) (s : String)
    (htr : (JVal.jobj l).truthy = true)
    (hty : type_name ((JVal.jobj l).get "type") = some "Undo")
    (hobj : (JVal.jobj l).get "object" = some (JVal.jstr s)) :
    inbox env ds (some (JVal.jobj l)) =
      ⟨⟨"", 200⟩, ds,
       [Event.sendWebmentions (env.json_dumps (env.redirect_unwrap (fetch_actor env (JVal.jobj l))))]⟩ := by
  have hsupp : isSupported ((JVal.jobj l).get "type") = true := by
    simp [isSupported, hty, SUPPORTED_TYPES]
  by_cases hse : s = ""
  · subst hse
    have hpo : parse_obj (JVal.jobj l) = JVal.jobj [] := by
      simp [parse_obj, hobj, JVal.truthy]
    have hfol : type_name ((JVal.jobj ([] : List (String × JVal))).get "type") = none := by
      simp [JVal.get, type_name]
    simp [inbox, htr, hty, hsupp, hpo, hfol, inbox_rest]
  · have hpo : parse_obj (JVal.jobj l) = JVal.jobj [("id", JVal.jstr s)] := by
      simp [parse_obj, hobj, JVal.truthy, hse]
    have hfol : type_name ((JVal.jobj [("id", JVal.jstr s)]).get "type") = none := by
      simp [JVal.get, type_name]
    simp [inbox, htr, hty, hsupp, hpo, hfol, inbox_rest]

/-- C10 witness: the theorem applied at the concrete Undo-with-string-object
input over a store holding a matching follower, which stays untouched. -/
theorem c10_witness :
    type_name ((JVal.jobj actUndoStrL).get "type") = some "Undo" ∧
    (JVal.jobj actUndoStrL).get "object" = some (JVal.jstr "http://follow/id") ∧
    inbox baseEnv dsOneActive (some (JVal.jobj actUndoStrL)) =
      ⟨⟨"", 200⟩, dsOneActive,
       [Event.sendWebmentions (baseEnv.json_dumps
         (baseEnv.redirect_unwrap (fetch_actor baseEnv (JVal.jobj actUndoStrL))))]⟩ :=
  ⟨rfl, rfl,
   c10_string_undo_object_skips_undo_follow baseEnv dsOneActive actUndoStrL "http://follow/id"
     rfl rfl rfl⟩
